import Mathlib

/-
Verification of the polylog desktop command bridge.

The repository's Rust layer forwards string-encoded parameters across an
embedded-interpreter boundary to an external scripting module named
"polylog_core".  We embed the bridge shallowly: the interpreter runtime is an
association list of named modules, a module is an association list of named
callables, a callable maps the single string argument to either a foreign
value or a raised foreign error, and a foreign value carries its optional
string coercion (the pyo3 extract::<String>).
-/

namespace Polylog

/-- A foreign (interpreter-side) value.  It is opaque to the Rust layer except
for its optional coercion to a string: `extractString = some s` means the
value is string-convertible with representation `s`, and `none` means the
pyo3-style extraction fails. -/
structure PyValue where
  extractString : Option String
deriving DecidableEq

/-- A foreign error (pyo3 PyErr): the raising exception's type name and its
message. -/
structure PyErr where
  typeName : String
  message : String
deriving DecidableEq

/-- Textual representation of a foreign error, as pyo3's Display renders it:
the type name, followed by ": message" when the message is non-empty. -/
def PyErr.toString (e : PyErr) : String :=
  if e.message = "" then e.typeName else e.typeName ++ ": " ++ e.message

/-- A callable attribute of a foreign module: one string argument in, either a
foreign value or a raised foreign error out. -/
abbrev PyFn := String → Except PyErr PyValue

/-- A foreign module: its named attributes (callables). -/
structure PyModule where
  attrs : List (String × PyFn)

/-- The embedded interpreter runtime: the modules importable by name. -/
structure PyRuntime where
  modules : List (String × PyModule)

/-- Name lookup in an association list, first match wins. -/
def assocLookup {α : Type} : List (String × α) → String → Option α
  | [], _ => none
  | (k, v) :: rest, key => if k = key then some v else assocLookup rest key

/-- `PyModule::import`: resolve a module by name in the runtime. -/
def lookupModule (rt : PyRuntime) (name : String) : Option PyModule :=
  assocLookup rt.modules name

/-- `getattr`: resolve a callable attribute by name within a module. -/
def PyModule.getattr (m : PyModule) (name : String) : Option PyFn :=
  assocLookup m.attrs name

/-- The error raised when module import fails. -/
def moduleNotFoundError (name : String) : PyErr :=
  { typeName := "ModuleNotFoundError", message := "No module named " ++ name }

/-- The error raised when attribute lookup fails. -/
def attributeError (moduleName attrName : String) : PyErr :=
  { typeName := "AttributeError",
    message := "module " ++ moduleName ++ " has no attribute " ++ attrName }

/-- The error raised when the returned foreign value cannot be coerced to a
string. -/
def typeCoercionError : PyErr :=
  { typeName := "TypeError", message := "object cannot be converted to str" }

/-- `call_python_module` from
`docs/archive/legacy_files/src-tauri/src/python_bridge.rs`: import the module
by name, resolve the function attribute, call it with the single string
argument, and extract the result as a string; each `?` short-circuits with
the foreign error. -/
def call_python_module (rt : PyRuntime) (module_name function_name args : String) :
    Except PyErr String :=
  match lookupModule rt module_name with
  | none => Except.error (moduleNotFoundError module_name)
  | some m =>
    match m.getattr function_name with
    | none => Except.error (attributeError module_name function_name)
    | some callable =>
      match callable args with
      | Except.error e => Except.error e
      | Except.ok result =>
        match result.extractString with
        | none => Except.error typeCoercionError
        | some s => Except.ok s

/-- The Rust `.map_err(|e| e.to_string())` applied by every command to the
bridge's result. -/
def mapErrToString (r : Except PyErr String) : Except String String :=
  match r with
  | Except.ok s => Except.ok s
  | Except.error e => Except.error e.toString

namespace Commands

/-- `run_simulation` from
`docs/archive/legacy_files/src-tauri/src/commands.rs`. -/
def run_simulation (rt : PyRuntime) (params : String) : Except String String :=
  mapErrToString (call_python_module rt "polylog_core" "simulate" params)

/-- `get_unicode_symbols` from
`docs/archive/legacy_files/src-tauri/src/commands.rs`. -/
def get_unicode_symbols (rt : PyRuntime) (params : String) : Except String String :=
  mapErrToString (call_python_module rt "polylog_core" "get_unicode_symbols" params)

/-- `launch_polyform` from
`docs/archive/legacy_files/src-tauri/src/commands.rs`. -/
def launch_polyform (rt : PyRuntime) (params : String) : Except String String :=
  mapErrToString (call_python_module rt "polylog_core" "launch_polyform" params)

end Commands

namespace BridgeBackup

/-- `run_simulation` from `src-tauri-backup/src/python_bridge.rs`: the same
bridge inlined for the single command — import "polylog_core", invoke its
"simulate" method (`call_method1`, i.e. attribute lookup plus call) with
`params`, extract the result as a string; every error is converted to its
textual representation. -/
def run_simulation (rt : PyRuntime) (params : String) : Except String String :=
  match lookupModule rt "polylog_core" with
  | none => Except.error (moduleNotFoundError "polylog_core").toString
  | some polylog =>
    match polylog.getattr "simulate" with
    | none => Except.error (attributeError "polylog_core" "simulate").toString
    | some callable =>
      match callable params with
      | Except.error e => Except.error e.toString
      | Except.ok result =>
        match result.extractString with
        | none => Except.error typeCoercionError.toString
        | some s => Except.ok s

end BridgeBackup

/-- One observable step of the bridge: module import, attribute lookup, the
foreign-function invocation (recording the argument passed), and the string
extraction of the result. -/
inductive Step where
  | importModule (name : String)
  | getattr (moduleName attrName : String)
  | invoke (moduleName attrName arg : String)
  | extractStr
deriving DecidableEq

/-- Whether a step is the foreign-function invocation. -/
def Step.isInvoke : Step → Bool
  | Step.invoke _ _ _ => true
  | _ => false

/-- `call_python_module` instrumented with the list of steps it performs, in
order.  Its result component coincides with `call_python_module`
(`call_python_module_trace_sound`). -/
def call_python_module_trace (rt : PyRuntime) (mn fn args : String) :
    List Step × Except PyErr String :=
  match lookupModule rt mn with
  | none => ([Step.importModule mn], Except.error (moduleNotFoundError mn))
  | some m =>
    match m.getattr fn with
    | none =>
      ([Step.importModule mn, Step.getattr mn fn],
       Except.error (attributeError mn fn))
    | some callable =>
      match callable args with
      | Except.error e =>
        ([Step.importModule mn, Step.getattr mn fn, Step.invoke mn fn args],
         Except.error e)
      | Except.ok result =>
        match result.extractString with
        | none =>
          ([Step.importModule mn, Step.getattr mn fn, Step.invoke mn fn args,
            Step.extractStr],
           Except.error typeCoercionError)
        | some s =>
          ([Step.importModule mn, Step.getattr mn fn, Step.invoke mn fn args,
            Step.extractStr],
           Except.ok s)

/-- The external module accepts the input: the module resolves, the callable
resolves, the call returns a value, and that value is string-convertible with
representation `s`. -/
def bridgeAccepts (rt : PyRuntime) (mn fn args s : String) : Prop :=
  ∃ m callable v, lookupModule rt mn = some m ∧ m.getattr fn = some callable ∧
    callable args = Except.ok v ∧ v.extractString = some s

namespace MainBackup

/-- `run_simulation` from `src-tauri-backup/src/main.rs`: a plain string
formatter, not a fallible command. -/
def run_simulation (params : String) : String :=
  "Simulating with: " ++ params

end MainBackup

/-- A string-convertible foreign value used for concrete evaluations. -/
def demoValue : PyValue :=
  { extractString := some "ok-result" }

/-- A concrete foreign module exposing the three contract functions, each
returning a string-convertible value. -/
def demoModule : PyModule :=
  { attrs := [("simulate", fun _ => Except.ok demoValue),
              ("get_unicode_symbols", fun _ => Except.ok demoValue),
              ("launch_polyform", fun _ => Except.ok demoValue)] }

/-- A runtime where "polylog_core" resolves to `demoModule`. -/
def demoRuntime : PyRuntime :=
  { modules := [("polylog_core", demoModule)] }

/-- A runtime with no importable modules. -/
def emptyRuntime : PyRuntime :=
  { modules := [] }

/-- A foreign value that is not string-convertible. -/
def badValue : PyValue :=
  { extractString := none }

/-- A concrete module whose "simulate" raises on "boom", returns a
non-convertible value on "bad", and a convertible value otherwise. -/
def mixedModule : PyModule :=
  { attrs := [("simulate", fun args =>
      if args = "boom" then
        Except.error { typeName := "RuntimeError", message := "boom" }
      else if args = "bad" then Except.ok badValue
      else Except.ok demoValue)] }

/-- A runtime where "polylog_core" resolves to `mixedModule`. -/
def mixedRuntime : PyRuntime :=
  { modules := [("polylog_core", mixedModule)] }

/-- Modelled from the spec: the external scripting module `polylog_core` is
not part of the repository source; per the spec's example scenario, its
`simulate` accepts `"test_params"` (returning a string-convertible value) and
raises on `"invalid_params"`. -/
def polylog_core_spec : PyModule :=
  { attrs := [("simulate", fun args =>
      if args = "invalid_params" then
        Except.error { typeName := "ValueError",
                       message := "invalid simulation parameters" }
      else
        Except.ok { extractString := some ("simulated: " ++ args) })] }

/-- The runtime containing the spec-modelled `polylog_core`. -/
def specRuntime : PyRuntime :=
  { modules := [("polylog_core", polylog_core_spec)] }

/-- A second runtime whose "polylog_core" entry agrees with `demoRuntime`
but which carries an extra unrelated module. -/
def demoRuntime2 : PyRuntime :=
  { modules := [("polylog_core", demoModule), ("other", demoModule)] }

/-- Case analysis on the bridge: either the input is accepted by the module
and the bridge returns the extracted string, or it returns a foreign error. -/
theorem call_python_module_cases (rt : PyRuntime) (mn fn args : String) :
    (∃ s, call_python_module rt mn fn args = Except.ok s ∧
      bridgeAccepts rt mn fn args s) ∨
    (∃ e, call_python_module rt mn fn args = Except.error e) := by
  cases hm : lookupModule rt mn with
  | none =>
    exact Or.inr ⟨moduleNotFoundError mn, by simp [call_python_module, hm]⟩
  | some m =>
    cases hf : m.getattr fn with
    | none =>
      exact Or.inr ⟨attributeError mn fn, by simp [call_python_module, hm, hf]⟩
    | some callable =>
      cases hc : callable args with
      | error e => exact Or.inr ⟨e, by simp [call_python_module, hm, hf, hc]⟩
      | ok v =>
        cases hv : v.extractString with
        | none =>
          exact Or.inr ⟨typeCoercionError,
            by simp [call_python_module, hm, hf, hc, hv]⟩
        | some s =>
          exact Or.inl ⟨s, by simp [call_python_module, hm, hf, hc, hv],
            m, callable, v, hm, hf, hc, hv⟩

/-- An accepted input makes the bridge return the extracted string. -/
theorem call_python_module_accepts (rt : PyRuntime) (mn fn args s : String)
    (h : bridgeAccepts rt mn fn args s) :
    call_python_module rt mn fn args = Except.ok s := by
  obtain ⟨m, callable, v, hm, hf, hc, hv⟩ := h
  simp [call_python_module, hm, hf, hc, hv]

/-- Lift of `call_python_module_cases` through the error-to-string map every
command applies. -/
theorem command_cases (rt : PyRuntime) (fn q : String) :
    (∃ t, mapErrToString (call_python_module rt "polylog_core" fn q) =
        Except.ok t ∧ bridgeAccepts rt "polylog_core" fn q t) ∨
    (∃ e, mapErrToString (call_python_module rt "polylog_core" fn q) =
        Except.error e) := by
  rcases call_python_module_cases rt "polylog_core" fn q with ⟨s, hs, hacc⟩ | ⟨e, he⟩
  · exact Or.inl ⟨s, by rw [hs]; rfl, hacc⟩
  · exact Or.inr ⟨e.toString, by rw [he]; rfl⟩

/-- The bridge reads the runtime only through the requested module entry. -/
theorem call_python_module_frame (rt rt2 : PyRuntime) (mn fn args : String)
    (h : lookupModule rt mn = lookupModule rt2 mn) :
    call_python_module rt mn fn args = call_python_module rt2 mn fn args := by
  unfold call_python_module
  rw [h]

/-- The instrumented bridge computes the same result as the plain one. -/
theorem call_python_module_trace_sound (rt : PyRuntime) (mn fn args : String) :
    (call_python_module_trace rt mn fn args).2 = call_python_module rt mn fn args := by
  cases hm : lookupModule rt mn with
  | none => simp [call_python_module_trace, call_python_module, hm]
  | some m =>
    cases hf : m.getattr fn with
    | none => simp [call_python_module_trace, call_python_module, hm, hf]
    | some callable =>
      cases hc : callable args with
      | error e => simp [call_python_module_trace, call_python_module, hm, hf, hc]
      | ok v =>
        cases hv : v.extractString with
        | none =>
          simp [call_python_module_trace, call_python_module, hm, hf, hc, hv]
        | some s =>
          simp [call_python_module_trace, call_python_module, hm, hf, hc, hv]

/-- The four possible step traces of a bridge call. -/
theorem call_python_module_trace_shape (rt : PyRuntime) (mn fn args : String) :
    (call_python_module_trace rt mn fn args).1 = [Step.importModule mn] ∨
    (call_python_module_trace rt mn fn args).1 =
      [Step.importModule mn, Step.getattr mn fn] ∨
    (call_python_module_trace rt mn fn args).1 =
      [Step.importModule mn, Step.getattr mn fn, Step.invoke mn fn args] ∨
    (call_python_module_trace rt mn fn args).1 =
      [Step.importModule mn, Step.getattr mn fn, Step.invoke mn fn args,
       Step.extractStr] := by
  cases hm : lookupModule rt mn with
  | none => exact Or.inl (by simp [call_python_module_trace, hm])
  | some m =>
    cases hf : m.getattr fn with
    | none => exact Or.inr (Or.inl (by simp [call_python_module_trace, hm, hf]))
    | some callable =>
      cases hc : callable args with
      | error e =>
        exact Or.inr (Or.inr (Or.inl
          (by simp [call_python_module_trace, hm, hf, hc])))
      | ok v =>
        cases hv : v.extractString with
        | none =>
          exact Or.inr (Or.inr (Or.inr
            (by simp [call_python_module_trace, hm, hf, hc, hv])))
        | some s =>
          exact Or.inr (Or.inr (Or.inr
            (by simp [call_python_module_trace, hm, hf, hc, hv])))

/-- C1: each command entry point returns a Result that is either Ok with the
external module's string return value or Err with a string describing the
failure (totality: no panic escapes), and for any input accepted by the
external module, run_simulation returns Ok of the module's string-convertible
return value. -/
theorem C1_command_result_duality (rt : PyRuntime) (params s : String)
    (h : bridgeAccepts rt "polylog_core" "simulate" params s) :
    Commands.run_simulation rt params = Except.ok s ∧
    ∀ q : String,
      ((∃ t, Commands.run_simulation rt q = Except.ok t ∧
          bridgeAccepts rt "polylog_core" "simulate" q t) ∨
        (∃ e, Commands.run_simulation rt q = Except.error e)) ∧
      ((∃ t, Commands.get_unicode_symbols rt q = Except.ok t ∧
          bridgeAccepts rt "polylog_core" "get_unicode_symbols" q t) ∨
        (∃ e, Commands.get_unicode_symbols rt q = Except.error e)) ∧
      ((∃ t, Commands.launch_polyform rt q = Except.ok t ∧
          bridgeAccepts rt "polylog_core" "launch_polyform" q t) ∨
        (∃ e, Commands.launch_polyform rt q = Except.error e)) := by
  refine ⟨?_, fun q => ⟨command_cases rt "simulate" q,
    command_cases rt "get_unicode_symbols" q,
    command_cases rt "launch_polyform" q⟩⟩
  have hcall := call_python_module_accepts rt "polylog_core" "simulate" params s h
  simp [Commands.run_simulation, hcall, mapErrToString]

/-- Witness for C1 at a concrete runtime whose module accepts the input. -/
theorem C1_command_result_duality_witness :
    Commands.run_simulation demoRuntime "p" = Except.ok "ok-result" :=
  (C1_command_result_duality demoRuntime "p" "ok-result"
    ⟨demoModule, fun _ => Except.ok demoValue, demoValue, rfl, rfl, rfl, rfl⟩).1

/-- C2: when the module "polylog_core" cannot be resolved, every command
returns an Err signaling module-not-found (never a panic). -/
theorem C2_module_not_found (rt : PyRuntime) (p : String)
    (h : lookupModule rt "polylog_core" = none) :
    Commands.run_simulation rt p =
      Except.error (moduleNotFoundError "polylog_core").toString ∧
    Commands.get_unicode_symbols rt p =
      Except.error (moduleNotFoundError "polylog_core").toString ∧
    Commands.launch_polyform rt p =
      Except.error (moduleNotFoundError "polylog_core").toString ∧
    BridgeBackup.run_simulation rt p =
      Except.error (moduleNotFoundError "polylog_core").toString := by
  refine ⟨?_, ?_, ?_, ?_⟩ <;>
    simp [Commands.run_simulation, Commands.get_unicode_symbols,
      Commands.launch_polyform, BridgeBackup.run_simulation,
      call_python_module, mapErrToString, h]

/-- Witness for C2 at the empty runtime. -/
theorem C2_module_not_found_witness :
    Commands.run_simulation emptyRuntime "x" =
      Except.error (moduleNotFoundError "polylog_core").toString :=
  (C2_module_not_found emptyRuntime "x" rfl).1

/-- C3: every command targets the module "polylog_core" and the contract
function matching its name, passing the payload string unchanged as the
single argument (the recorded invocation step carries exactly the caller's
payload); the backup bridge does the same. -/
theorem C3_fixed_target (rt : PyRuntime) (params : String) :
    Commands.run_simulation rt params =
      mapErrToString (call_python_module rt "polylog_core" "simulate" params) ∧
    Commands.get_unicode_symbols rt params =
      mapErrToString
        (call_python_module rt "polylog_core" "get_unicode_symbols" params) ∧
    Commands.launch_polyform rt params =
      mapErrToString
        (call_python_module rt "polylog_core" "launch_polyform" params) ∧
    BridgeBackup.run_simulation rt params =
      mapErrToString (call_python_module rt "polylog_core" "simulate" params) ∧
    (∀ m callable, lookupModule rt "polylog_core" = some m →
      m.getattr "simulate" = some callable →
      Step.invoke "polylog_core" "simulate" params ∈
        (call_python_module_trace rt "polylog_core" "simulate" params).1) := by
  refine ⟨rfl, rfl, rfl, ?_, ?_⟩
  · cases hm : lookupModule rt "polylog_core" with
    | none =>
      simp [BridgeBackup.run_simulation, call_python_module, mapErrToString, hm]
    | some m =>
      cases hf : m.getattr "simulate" with
      | none =>
        simp [BridgeBackup.run_simulation, call_python_module, mapErrToString,
          hm, hf]
      | some callable =>
        cases hc : callable params with
        | error e =>
          simp [BridgeBackup.run_simulation, call_python_module, mapErrToString,
            hm, hf, hc]
        | ok v =>
          cases hv : v.extractString with
          | none =>
            simp [BridgeBackup.run_simulation, call_python_module,
              mapErrToString, hm, hf, hc, hv]
          | some s =>
            simp [BridgeBackup.run_simulation, call_python_module,
              mapErrToString, hm, hf, hc, hv]
  · intro m callable hm hf
    cases hc : callable params with
    | error e => simp [call_python_module_trace, hm, hf, hc]
    | ok v =>
      cases hv : v.extractString with
      | none => simp [call_python_module_trace, hm, hf, hc, hv]
      | some s => simp [call_python_module_trace, hm, hf, hc, hv]

/-- Witness for C3: at a concrete runtime the recorded invocation step
carries the caller's payload. -/
theorem C3_fixed_target_witness :
    Step.invoke "polylog_core" "simulate" "p" ∈
      (call_python_module_trace demoRuntime "polylog_core" "simulate" "p").1 :=
  (C3_fixed_target demoRuntime "p").2.2.2.2 demoModule
    (fun _ => Except.ok demoValue) rfl rfl

/-- C4: the bridge performs import, attribute lookup, invocation and string
coercion in that fixed order; a failure short-circuits all later steps, and
in particular the foreign function is never invoked when import or attribute
lookup fails; the instrumented bridge agrees with the plain one. -/
theorem C4_step_order_short_circuit (rt : PyRuntime) (mn fn args : String) :
    (∃ rest, (call_python_module_trace rt mn fn args).1 ++ rest =
      [Step.importModule mn, Step.getattr mn fn, Step.invoke mn fn args,
       Step.extractStr]) ∧
    (lookupModule rt mn = none →
      (call_python_module_trace rt mn fn args).1 = [Step.importModule mn]) ∧
    (∀ m, lookupModule rt mn = some m → m.getattr fn = none →
      (call_python_module_trace rt mn fn args).1 =
        [Step.importModule mn, Step.getattr mn fn]) ∧
    (Step.invoke mn fn args ∈ (call_python_module_trace rt mn fn args).1 →
      ∃ m callable, lookupModule rt mn = some m ∧
        m.getattr fn = some callable) ∧
    (call_python_module_trace rt mn fn args).2 =
      call_python_module rt mn fn args := by
  refine ⟨?_, ?_, ?_, ?_, call_python_module_trace_sound rt mn fn args⟩
  · rcases call_python_module_trace_shape rt mn fn args with h | h | h | h <;>
      rw [h]
    · exact ⟨[Step.getattr mn fn, Step.invoke mn fn args, Step.extractStr], rfl⟩
    · exact ⟨[Step.invoke mn fn args, Step.extractStr], rfl⟩
    · exact ⟨[Step.extractStr], rfl⟩
    · exact ⟨[], by simp⟩
  · intro h
    simp [call_python_module_trace, h]
  · intro m hm hf
    simp [call_python_module_trace, hm, hf]
  · intro hmem
    cases hm : lookupModule rt mn with
    | none => simp [call_python_module_trace, hm] at hmem
    | some m =>
      cases hf : m.getattr fn with
      | none => simp [call_python_module_trace, hm, hf] at hmem
      | some callable => exact ⟨m, callable, rfl, hf⟩

/-- Witness for C4: at the empty runtime the trace stops at the failed
import. -/
theorem C4_step_order_short_circuit_witness :
    (call_python_module_trace emptyRuntime "polylog_core" "simulate" "x").1 =
      [Step.importModule "polylog_core"] :=
  (C4_step_order_short_circuit emptyRuntime "polylog_core" "simulate" "x").2.1 rfl

/-- C5: after a successful foreign call, the bridge returns Ok exactly of the
string coercion of the foreign value, and errors with the coercion failure
exactly when the value is not string-convertible. -/
theorem C5_extract_iff_convertible (rt : PyRuntime) (mn fn args : String)
    (m : PyModule) (callable : PyFn) (v : PyValue)
    (hm : lookupModule rt mn = some m) (hf : m.getattr fn = some callable)
    (hc : callable args = Except.ok v) :
    (∀ s, call_python_module rt mn fn args = Except.ok s ↔
      v.extractString = some s) ∧
    (call_python_module rt mn fn args = Except.error typeCoercionError ↔
      v.extractString = none) := by
  cases hv : v.extractString with
  | none =>
    have h : call_python_module rt mn fn args = Except.error typeCoercionError := by
      simp [call_python_module, hm, hf, hc, hv]
    rw [h]
    simp
  | some s0 =>
    have h : call_python_module rt mn fn args = Except.ok s0 := by
      simp [call_python_module, hm, hf, hc, hv]
    rw [h]
    simp [typeCoercionError]

/-- Witness for C5: a concrete foreign value without a string coercion makes
the bridge fail with the coercion error. -/
theorem C5_extract_iff_convertible_witness :
    call_python_module mixedRuntime "polylog_core" "simulate" "bad" =
      Except.error typeCoercionError := by
  have h := C5_extract_iff_convertible mixedRuntime "polylog_core" "simulate"
    "bad" mixedModule _ badValue rfl rfl rfl
  exact h.2.mpr rfl

/-- C6: an input on which the external module raises makes run_simulation
return Err of the textual representation of the raised error, which is
non-empty (the raising exception type has a non-empty name). -/
theorem C6_raise_propagates_nonempty (rt : PyRuntime) (p : String)
    (m : PyModule) (callable : PyFn) (e : PyErr)
    (hm : lookupModule rt "polylog_core" = some m)
    (hf : m.getattr "simulate" = some callable)
    (hc : callable p = Except.error e)
    (ht : e.typeName ≠ "") :
    Commands.run_simulation rt p = Except.error e.toString ∧
    e.toString ≠ "" := by
  constructor
  · simp [Commands.run_simulation, call_python_module, mapErrToString,
      hm, hf, hc]
  · unfold PyErr.toString
    by_cases hmsg : e.message = ""
    · simpa [hmsg] using ht
    · rw [if_neg hmsg]
      intro hcontra
      have hlen := congrArg String.length hcontra
      rw [String.length_append, String.length_append] at hlen
      have h2 : (": ").length = 2 := rfl
      have h0 : ("" : String).length = 0 := rfl
      rw [h2, h0] at hlen
      omega

/-- Witness for C6: the concrete module raising on "boom". -/
theorem C6_raise_propagates_nonempty_witness :
    Commands.run_simulation mixedRuntime "boom" =
      Except.error
        (PyErr.toString { typeName := "RuntimeError", message := "boom" }) :=
  (C6_raise_propagates_nonempty mixedRuntime "boom" mixedModule _
    { typeName := "RuntimeError", message := "boom" } rfl rfl rfl
    (by decide)).1

/-- C7: commands are stateless — the result depends only on the input and on
the external module's entry in the runtime — and the bridge performs at most
one foreign invocation per call (no retries, no caching). -/
theorem C7_stateless_single_invoke (rt rt2 : PyRuntime) (p : String)
    (h : lookupModule rt "polylog_core" = lookupModule rt2 "polylog_core") :
    Commands.run_simulation rt p = Commands.run_simulation rt2 p ∧
    Commands.get_unicode_symbols rt p = Commands.get_unicode_symbols rt2 p ∧
    Commands.launch_polyform rt p = Commands.launch_polyform rt2 p ∧
    ∀ fn, ((call_python_module_trace rt "polylog_core" fn p).1.countP
      Step.isInvoke) ≤ 1 := by
  refine ⟨?_, ?_, ?_, ?_⟩
  · unfold Commands.run_simulation
    rw [call_python_module_frame rt rt2 _ _ _ h]
  · unfold Commands.get_unicode_symbols
    rw [call_python_module_frame rt rt2 _ _ _ h]
  · unfold Commands.launch_polyform
    rw [call_python_module_frame rt rt2 _ _ _ h]
  · intro fn
    rcases call_python_module_trace_shape rt "polylog_core" fn p
      with hs | hs | hs | hs <;>
      rw [hs] <;>
      simp [List.countP_cons, Step.isInvoke]

/-- Witness for C7: two runtimes agreeing on "polylog_core" give the same
result. -/
theorem C7_stateless_single_invoke_witness :
    Commands.run_simulation demoRuntime "q" =
      Commands.run_simulation demoRuntime2 "q" :=
  (C7_stateless_single_invoke demoRuntime demoRuntime2 "q" rfl).1

/-- C8: per the provided test stub, against the spec-modelled external module
the input "test_params" yields Ok and the input "invalid_params" yields
Err. -/
theorem C8_test_stub_scenario :
    (∃ s, Commands.run_simulation specRuntime "test_params" = Except.ok s) ∧
    (∃ e, Commands.run_simulation specRuntime "invalid_params" =
      Except.error e) :=
  ⟨⟨_, rfl⟩, ⟨_, rfl⟩⟩

/-- C10: the run_simulation of the backup main.rs is total and infallible —
it returns the plain string "Simulating with: " followed by the parameters,
and is deterministic. -/
theorem C10_main_backup_formatter (p q : String) (h : p = q) :
    MainBackup.run_simulation p = "Simulating with: " ++ p ∧
    MainBackup.run_simulation p = MainBackup.run_simulation q ∧
    (MainBackup.run_simulation p).data =
      "Simulating with: ".data ++ p.data := by
  subst h
  refine ⟨rfl, rfl, ?_⟩
  cases p with
  | mk cs => rfl

/-- Witness for C10 at a concrete parameter string. -/
theorem C10_main_backup_formatter_witness :
    MainBackup.run_simulation "x" = "Simulating with: x" := by
  have h := C10_main_backup_formatter "x" "x" rfl
  rw [h.1]
  rfl

end Polylog
